import Mathlib

/-!
Verification of the changas-api attendance synchronization service.

The definitions below are a shallow embedding of the JavaScript sources:
src/services/attendanceService.js, src/services/googleSheetsService.js and
src/services/syncService.js.  JavaScript string-or-absent values are embedded
as `Option String` (with `none` for `undefined`), JavaScript truthiness on
such values is the predicate `truthy`, network and store failures are supplied
through explicit oracle parameters, and the mutable service state is passed
explicitly.
-/

namespace ChangasApi

/-- Raw attendance record as delivered by the remote TIPSOI API.  Every field
may be absent (`none`), mirroring an untyped JSON payload. -/
structure RawRecord where
  uid : Option String
  sync_time : Option String
  logged_time : Option String
  type : Option String
  device_identifier : Option String
  person_identifier : Option String
  rfid : Option String
  location : Option String
  primary_display_text : Option String
  secondary_display_text : Option String
deriving DecidableEq, Repr

/-- Project descriptor attached to a batch by the upstream API. -/
structure Project where
  code : Option String
  name : Option String
  organization : Option String
deriving DecidableEq, Repr

/-- JavaScript truthiness of a string-or-absent value: `undefined` and the
empty string are falsy. -/
def truthy : Option String → Bool
  | none => false
  | some s => s != ""

/-- JavaScript `x || ""` applied to a string-or-absent value. -/
def jsOrEmpty : Option String → String
  | none => ""
  | some s => s

/-- Membership of the raw `type` value in `["card", "fingerprint", "face"]`,
as tested by `Array.prototype.includes` in `validateAttendanceRecord`. -/
def validAttendanceType : Option String → Bool
  | none => false
  | some s => ["card", "fingerprint", "face"].contains s

/-- Embedding of `AttendanceService.validateAttendanceRecord`: all six
required fields must be truthy and the type must be one of the three
enumerated values. -/
def validateAttendanceRecord (record : RawRecord) : Bool :=
  truthy record.uid && truthy record.sync_time && truthy record.logged_time &&
  truthy record.type && truthy record.device_identifier &&
  truthy record.person_identifier && validAttendanceType record.type

/-- Normalized attendance record: the four optional display fields have been
defaulted to strings and the project descriptor has been attached. -/
structure ProcessedRecord where
  uid : Option String
  sync_time : Option String
  logged_time : Option String
  type : Option String
  device_identifier : Option String
  person_identifier : Option String
  rfid : String
  location : String
  primary_display_text : String
  secondary_display_text : String
  project : Project
deriving DecidableEq, Repr

/-- The per-record normalization step of
`AttendanceService.processAttendanceRecords`: spread of the raw record,
empty-string defaults for the four optional fields, project attached. -/
def processRecord (project : Project) (record : RawRecord) : ProcessedRecord :=
  { uid := record.uid
    sync_time := record.sync_time
    logged_time := record.logged_time
    type := record.type
    device_identifier := record.device_identifier
    person_identifier := record.person_identifier
    rfid := jsOrEmpty record.rfid
    location := jsOrEmpty record.location
    primary_display_text := jsOrEmpty record.primary_display_text
    secondary_display_text := jsOrEmpty record.secondary_display_text
    project := project }

/-- Embedding of `AttendanceService.processAttendanceRecords` on an array
input: filter by validity, then normalize each survivor. -/
def processAttendanceRecords (records : List RawRecord) (project : Project) :
    List ProcessedRecord :=
  (records.filter validateAttendanceRecord).map (processRecord project)

/-- Spec-side validity predicate, written from the specification words: a
record is valid only if `uid, sync_time, logged_time, type,
device_identifier, person_identifier` are present and non-empty and `type`
is one of card, fingerprint, face.  Used to compare the specified drop
criterion with the implemented one. -/
def specValidRecord (record : RawRecord) : Bool :=
  truthy record.uid && truthy record.sync_time && truthy record.logged_time &&
  truthy record.type && truthy record.device_identifier &&
  truthy record.person_identifier &&
  (record.type == some "card" || record.type == some "fingerprint" ||
    record.type == some "face")

theorem validate_eq_spec (record : RawRecord) :
    validateAttendanceRecord record = specValidRecord record := by
  unfold validateAttendanceRecord specValidRecord
  cases htype : record.type <;>
    simp [validAttendanceType, List.contains, truthy, beq_eq_decide,
      Bool.or_assoc]

/-! ### Google Sheets store (src/services/googleSheetsService.js) -/

/-- A sheet row: one cell per column, row 1 is the header. -/
abbrev SheetRow := List String

/-- The successful read path of `GoogleSheetsService.getExistingUIDs`: read
column A of every row, skip the header row, keep the truthy cells.  When at
most one row exists it returns the empty list. -/
def extractUIDs (rows : List SheetRow) : List String :=
  if rows.length > 1 then
    ((rows.drop 1).map (fun row => row.headD "")).filter (fun uid => uid != "")
  else []

/-- Embedding of `GoogleSheetsService.getExistingUIDs` with its failure
oracle: the catch branch of the source returns the empty list when the
spreadsheet read throws. -/
def getExistingUIDs (readFails : Bool) (rows : List SheetRow) : List String :=
  if readFails then [] else extractUIDs rows

/-- The row built for one record by `appendAttendanceData`: thirteen cells in
the fixed column order of the sheet. -/
def recordToRow (record : ProcessedRecord) : SheetRow :=
  [jsOrEmpty record.uid,
   jsOrEmpty record.sync_time,
   jsOrEmpty record.logged_time,
   jsOrEmpty record.type,
   jsOrEmpty record.device_identifier,
   record.location,
   jsOrEmpty record.person_identifier,
   record.rfid,
   record.primary_display_text,
   record.secondary_display_text,
   jsOrEmpty record.project.code,
   jsOrEmpty record.project.name,
   jsOrEmpty record.project.organization]

/-- The dedup cell of a record, as compared against the existing UID list. -/
def uidCell (record : ProcessedRecord) : String :=
  jsOrEmpty record.uid

deriving instance DecidableEq for Except

/-- Outcome of one `appendAttendanceData` call: the JavaScript return value
(`none` embeds `undefined`, `some n` a count, `Except.error` a rethrown store
failure), the resulting sheet rows, and how many write calls were issued. -/
structure AppendResult where
  retVal : Except String (Option Nat)
  rows : List SheetRow
  writeCalls : Nat
deriving DecidableEq, Repr

/-- Embedding of `GoogleSheetsService.appendAttendanceData`.  `readFails`
makes the UID read throw (swallowed by `getExistingUIDs`), `writeFailure`
makes the append call throw with the given message (rethrown). -/
def appendAttendanceData (readFails : Bool) (writeFailure : Option String)
    (rows : List SheetRow) (attendanceRecords : List ProcessedRecord) :
    AppendResult :=
  if attendanceRecords.length = 0 then
    { retVal := Except.ok none, rows := rows, writeCalls := 0 }
  else
    let existingUIDs := getExistingUIDs readFails rows
    let newRecords := attendanceRecords.filter
      (fun record => !(existingUIDs.contains (uidCell record)))
    if newRecords.length = 0 then
      { retVal := Except.ok none, rows := rows, writeCalls := 0 }
    else
      match writeFailure with
      | some message =>
          { retVal := Except.error message, rows := rows, writeCalls := 1 }
      | none =>
          { retVal := Except.ok (some newRecords.length),
            rows := rows ++ newRecords.map recordToRow,
            writeCalls := 1 }

/-- The UID cells of the data rows of a sheet (everything below the header). -/
def dataUIDs (rows : List SheetRow) : List String :=
  (rows.drop 1).map (fun row => row.headD "")

/-! ### Attendance service state and fetch (src/services/attendanceService.js) -/

/-- Mutable state of `AttendanceService`: the in-memory watermark
`lastSyncTime`, a timestamp in epoch milliseconds (`none` before the first
successful recent fetch). -/
structure AttState where
  lastSyncTime : Option Nat
deriving DecidableEq, Repr

/-- Oracle for one upstream API call: either a batch of raw records with a
project descriptor, or a thrown error message (timeout, HTTP error, network
error, as classified by the catch branches of `getAttendanceData`). -/
inductive FetchOutcome where
  | ok (records : List RawRecord) (project : Project)
  | err (message : String)
deriving DecidableEq, Repr

/-- The default query window strings of `getAttendanceData` and
`fetchAttendanceData`: January 1 of the current year. -/
def defaultStartTime (currentYear : Int) : String :=
  toString currentYear ++ "-01-01T00:00:00"

/-- December 31 of the year after the current one. -/
def defaultEndTime (currentYear : Int) : String :=
  toString (currentYear + 1) ++ "-12-31T23:59:59"

/-- Query parameters sent to the TIPSOI API by `getAttendanceData`. -/
structure TipsoiQueryParams where
  start : String
  «end» : String
  api_token : Option String
  per_page : Nat
  criteria : String
deriving DecidableEq, Repr

/-- Embedding of the params object built inside
`AttendanceService.getAttendanceData`: `start` and `end` are always the
year-based defaults; the `startTime` and `endTime` arguments are only
logged, never placed into the query. -/
def buildAttendanceQuery (apiToken : Option String) (perPage : Nat)
    (currentYear : Int) (startTime endTime : String) (criteria : String) :
    TipsoiQueryParams :=
  { start := defaultStartTime currentYear
    «end» := defaultEndTime currentYear
    api_token := apiToken
    per_page := perPage
    criteria := criteria }

/-- The auto-sync window computed by `getRecentAttendanceData`: start at the
watermark, or twenty-four hours before `now` on the first run; end at `now`
(times in epoch milliseconds). -/
def autoSyncWindow (now : Nat) (st : AttState) : Nat × Nat :=
  match st.lastSyncTime with
  | some t => (t, now)
  | none => (now - 24 * 60 * 60 * 1000, now)

/-- Embedding of `AttendanceService.getRecentAttendanceData`: on fetch
success the watermark is set to the captured end time `now`; on a thrown
fetch error the exception propagates and the watermark is untouched. -/
def getRecentAttendanceData (now : Nat) (st : AttState)
    (outcome : FetchOutcome) :
    Except String (List RawRecord × Project) × AttState :=
  match outcome with
  | FetchOutcome.ok records project =>
      (Except.ok (records, project), { lastSyncTime := some now })
  | FetchOutcome.err message => (Except.error message, st)

/-- Configuration snapshot of `AttendanceService` used by `getStatus`. -/
structure AttendanceConfig where
  baseUrl : Option String
  apiToken : Option String
  perPage : Nat
  lastSyncTime : Option Nat
deriving DecidableEq, Repr

/-- The object returned by `AttendanceService.getStatus`. -/
structure ServiceStatus where
  baseUrl : Option String
  hasToken : Bool
  perPage : Nat
  lastSyncTime : Option Nat
  tokenPreview : String
deriving DecidableEq, Repr

/-- Embedding of `AttendanceService.getStatus`: `hasToken` is the double
negation of the token, `tokenPreview` shows the first eight characters
followed by an ellipsis, or the literal `Not set` for a falsy token. -/
def getStatus (c : AttendanceConfig) : ServiceStatus :=
  { baseUrl := c.baseUrl
    hasToken := truthy c.apiToken
    perPage := c.perPage
    lastSyncTime := c.lastSyncTime
    tokenPreview :=
      if truthy c.apiToken then (jsOrEmpty c.apiToken).take 8 ++ "..."
      else "Not set" }

/-! ### Sync orchestrator (src/services/syncService.js) -/

/-- Sync attempt outcome as assembled by `performSync` and
`performManualSync`.  The JavaScript objects also carry a timestamp and a
duration; those clock readings are not modelled.  An absent `error` property
is `none`, absent counts are zero. -/
structure SyncResult where
  success : Bool
  message : String
  error : Option String
  recordsFetched : Nat
  recordsAdded : Nat
deriving DecidableEq, Repr

/-- Mutable state of `SyncService`: the attendance-service watermark, the
single-flight flag `isRunning`, and the cached `lastSyncResult`. -/
structure SyncState where
  att : AttState
  isRunning : Bool
  lastSyncResult : Option SyncResult
deriving DecidableEq, Repr

/-- Failure oracle for one sync attempt: the upstream fetch outcome and the
store read/write failure switches. -/
structure SyncEnv where
  fetchOutcome : FetchOutcome
  readFails : Bool
  writeFailure : Option String
deriving DecidableEq, Repr

/-- Result of running one orchestrator entry point: the returned result
object, the new service state, and the new sheet contents. -/
structure SyncStep where
  result : SyncResult
  state : SyncState
  store : List SheetRow
deriving DecidableEq, Repr

/-- Embedding of `SyncService.performSync` (the auto-sync entry point).  The
guard check, the early returns and the catch branch all sit inside the
JavaScript try block, so the finally clause `this.isRunning = false` also
runs on the already-running rejection path. -/
def performSync (now : Nat) (env : SyncEnv) (s : SyncState)
    (store : List SheetRow) : SyncStep :=
  if s.isRunning then
    { result := { success := false, message := "Sync already in progress",
                  error := none, recordsFetched := 0, recordsAdded := 0 }
      state := { s with isRunning := false }
      store := store }
  else
    match getRecentAttendanceData now s.att env.fetchOutcome with
    | (Except.error message, att2) =>
        let result : SyncResult :=
          { success := false, message := message, error := some "Error",
            recordsFetched := 0, recordsAdded := 0 }
        { result := result
          state := { att := att2, isRunning := false,
                     lastSyncResult := some result }
          store := store }
    | (Except.ok (records, project), att2) =>
        if records.length = 0 then
          let result : SyncResult :=
            { success := true, message := "No new records", error := none,
              recordsFetched := 0, recordsAdded := 0 }
          { result := result
            state := { att := att2, isRunning := false,
                       lastSyncResult := some result }
            store := store }
        else
          let processedRecords := processAttendanceRecords records project
          if processedRecords.length = 0 then
            let result : SyncResult :=
              { success := true, message := "No valid records to sync",
                error := none, recordsFetched := records.length,
                recordsAdded := 0 }
            { result := result
              state := { att := att2, isRunning := false,
                         lastSyncResult := some result }
              store := store }
          else
            match appendAttendanceData env.readFails
                env.writeFailure store processedRecords with
            | { retVal := Except.error message, rows := rows2, .. } =>
                let result : SyncResult :=
                  { success := false, message := message,
                    error := some "Error", recordsFetched := 0,
                    recordsAdded := 0 }
                { result := result
                  state := { att := att2, isRunning := false,
                             lastSyncResult := some result }
                  store := rows2 }
            | { retVal := Except.ok cnt, rows := rows2, .. } =>
                let result : SyncResult :=
                  { success := true,
                    message := "Sync completed successfully", error := none,
                    recordsFetched := records.length,
                    recordsAdded := cnt.getD 0 }
                { result := result
                  state := { att := att2, isRunning := false,
                             lastSyncResult := some result }
                  store := rows2 }

/-- Embedding of `SyncService.performManualSync`.  The range endpoints only
select the upstream window (whose outcome the oracle supplies); the
watermark and `lastSyncResult` are never written on this path, and the
finally clause clears `isRunning` on every exit, the thrown
already-running rejection included. -/
def performManualSync (startDate endDate : Nat) (env : SyncEnv)
    (s : SyncState) (store : List SheetRow) : SyncStep :=
  if s.isRunning then
    { result := { success := false,
                  message := "Another sync operation is already running",
                  error := some "Error", recordsFetched := 0,
                  recordsAdded := 0 }
      state := { s with isRunning := false }
      store := store }
  else
    match env.fetchOutcome with
    | FetchOutcome.err message =>
        { result := { success := false, message := message,
                      error := some "Error", recordsFetched := 0,
                      recordsAdded := 0 }
          state := { s with isRunning := false }
          store := store }
    | FetchOutcome.ok records project =>
        if records.length = 0 then
          { result := { success := true,
                        message := "No records found in the specified date range",
                        error := none, recordsFetched := 0,
                        recordsAdded := 0 }
            state := { s with isRunning := false }
            store := store }
        else
          let processedRecords := processAttendanceRecords records project
          match appendAttendanceData env.readFails env.writeFailure store
              processedRecords with
          | { retVal := Except.error message, rows := rows2, .. } =>
              { result := { success := false, message := message,
                            error := some "Error", recordsFetched := 0,
                            recordsAdded := 0 }
                state := { s with isRunning := false }
                store := rows2 }
          | { retVal := Except.ok cnt, rows := rows2, .. } =>
              { result := { success := true,
                            message := "Manual sync completed successfully",
                            error := none, recordsFetched := records.length,
                            recordsAdded := cnt.getD 0 }
                state := { s with isRunning := false }
                store := rows2 }

/-- Filters accepted by `SyncService.fetchAttendanceData` (the read-only
query entry point exposed on GET /data). -/
structure QueryFilters where
  startTime : Option String
  endTime : Option String
deriving DecidableEq, Repr

/-- JavaScript `x || d` on a string-or-absent value. -/
def jsOrDefault (v : Option String) (d : String) : String :=
  match v with
  | none => d
  | some s => if s == "" then d else s

/-- Result of one `fetchAttendanceData` call. -/
structure FetchStep where
  success : Bool
  message : String
  records : List ProcessedRecord
  recordsFetched : Nat
  appliedFilters : QueryFilters
  state : SyncState
  store : List SheetRow
deriving DecidableEq, Repr

/-- Embedding of `SyncService.fetchAttendanceData`: builds defaulted query
filters, then calls `getRecentAttendanceData` — which takes no arguments,
ignores the filters and advances the watermark on success.  No store call is
made and `isRunning` and `lastSyncResult` are untouched. -/
def fetchAttendanceData (currentYear : Int) (now : Nat)
    (filters : QueryFilters) (env : SyncEnv) (s : SyncState)
    (store : List SheetRow) : FetchStep :=
  let queryFilters : QueryFilters :=
    { startTime := some (jsOrDefault filters.startTime
        (defaultStartTime currentYear))
      endTime := some (jsOrDefault filters.endTime
        (defaultEndTime currentYear)) }
  match getRecentAttendanceData now s.att env.fetchOutcome with
  | (Except.error message, att2) =>
      { success := false, message := message, records := [],
        recordsFetched := 0, appliedFilters := queryFilters,
        state := { s with att := att2 }, store := store }
  | (Except.ok (records, project), att2) =>
      if records.length = 0 then
        { success := true, message := "No records found", records := [],
          recordsFetched := 0, appliedFilters := queryFilters,
          state := { s with att := att2 }, store := store }
      else
        let processedRecords := processAttendanceRecords records project
        if processedRecords.length = 0 then
          { success := true, message := "No valid records after processing",
            records := [], recordsFetched := records.length,
            appliedFilters := queryFilters,
            state := { s with att := att2 }, store := store }
        else
          { success := true, message := "Data fetched successfully",
            records := processedRecords,
            recordsFetched := processedRecords.length,
            appliedFilters := queryFilters,
            state := { s with att := att2 }, store := store }

/-! ### Concrete fixtures used by witnesses and counterexamples -/

/-- The header row created by `createHeaderRow`. -/
def hdr13 : SheetRow :=
  ["UID", "Sync Time", "Logged Time", "Type", "Device ID", "Location",
   "Person ID", "RFID", "Primary Display", "Secondary Display",
   "Project Code", "Project Name", "Organization"]

def projA : Project :=
  { code := some "P1", name := some "Demo", organization := some "Org" }

/-- A raw record satisfying the validity invariant. -/
def rawGood : RawRecord :=
  { uid := some "a1", sync_time := some "2026-10-10 08:00:00",
    logged_time := some "2026-10-10 07:59:58", type := some "card",
    device_identifier := some "dev1", person_identifier := some "p1",
    rfid := none, location := none, primary_display_text := none,
    secondary_display_text := none }

/-- A raw record with a missing `person_identifier`, hence invalid. -/
def rawBad : RawRecord :=
  { uid := some "a2", sync_time := some "2026-10-10 08:01:00",
    logged_time := some "2026-10-10 08:00:58", type := some "card",
    device_identifier := some "dev1", person_identifier := none,
    rfid := none, location := none, primary_display_text := none,
    secondary_display_text := none }

/-- A second valid raw record with uid `v`. -/
def rawV1 : RawRecord :=
  { rawGood with uid := some "v", person_identifier := some "p2" }

/-- A third valid raw record sharing uid `v` but differing in person. -/
def rawV2 : RawRecord :=
  { rawGood with uid := some "v", person_identifier := some "p3" }

def recA : ProcessedRecord := processRecord projA rawGood
def recV1 : ProcessedRecord := processRecord projA rawV1
def recV2 : ProcessedRecord := processRecord projA rawV2

/-- Previous sync result cached in the orchestrator. -/
def resPrev : SyncResult :=
  { success := true, message := "Sync completed successfully", error := none,
    recordsFetched := 3, recordsAdded := 3 }

/-- Idle orchestrator state with watermark 500 and a cached result. -/
def sIdle : SyncState :=
  { att := { lastSyncTime := some 500 }, isRunning := false,
    lastSyncResult := some resPrev }

/-- Orchestrator state while a sync is in flight. -/
def sBusy : SyncState :=
  { att := { lastSyncTime := some 500 }, isRunning := true,
    lastSyncResult := some resPrev }

def envOK : SyncEnv :=
  { fetchOutcome := FetchOutcome.ok [rawGood] projA, readFails := false,
    writeFailure := none }

def envTimeout : SyncEnv :=
  { fetchOutcome :=
      FetchOutcome.err "Request timeout - TIPSOI API took too long to respond",
    readFails := false, writeFailure := none }

def envWriteFail : SyncEnv :=
  { fetchOutcome := FetchOutcome.ok [rawGood] projA, readFails := false,
    writeFailure := some "StoreError" }

/-! ### Claim C1 -/

/-- Claim C1: the query sent by the Record Source Adapter never uses the
explicit `[windowStart, windowEnd)` arguments; it is built from the fixed
year-based defaults regardless of the requested window, contradicting the
specified behaviour.  The first conjunct shows the built query is
independent of the window arguments; the remaining conjuncts evaluate the
query at a concrete auto-sync window and exhibit the fixed range actually
sent. -/
theorem C1_query_ignores_window :
    (∀ (apiToken : Option String) (perPage : Nat) (currentYear : Int)
      (s1 e1 s2 e2 criteria : String),
        buildAttendanceQuery apiToken perPage currentYear s1 e1 criteria
          = buildAttendanceQuery apiToken perPage currentYear s2 e2 criteria)
    ∧ (buildAttendanceQuery (some "token") 500 2026 "2026-10-10T00:00:00"
        "2026-10-11T00:00:00" "sync_time").start = "2026-01-01T00:00:00"
    ∧ (buildAttendanceQuery (some "token") 500 2026 "2026-10-10T00:00:00"
        "2026-10-11T00:00:00" "sync_time").«end» = "2027-12-31T23:59:59"
    ∧ "2026-01-01T00:00:00" ≠ "2026-10-10T00:00:00" := by
  refine ⟨fun _ _ _ _ _ _ _ _ => rfl, ?_, ?_, ?_⟩ <;> decide

/-! ### Claim C9 -/

/-- Claim C9: `processAttendanceRecords` keeps exactly the records satisfying
the spec validity predicate (six required fields present and non-empty, type
among card, fingerprint, face), normalizing each survivor; it never fails
the batch, attaches the batch project descriptor to every output, and
defaults the four optional fields to the empty string when absent. -/
theorem C9_normalize_drops_exactly_invalid (records : List RawRecord)
    (project : Project) :
    processAttendanceRecords records project
      = (records.filter specValidRecord).map (processRecord project)
    ∧ (∀ p ∈ processAttendanceRecords records project, p.project = project)
    ∧ (∀ record : RawRecord,
        (record.rfid = none → (processRecord project record).rfid = "")
        ∧ (record.location = none →
            (processRecord project record).location = "")
        ∧ (record.primary_display_text = none →
            (processRecord project record).primary_display_text = "")
        ∧ (record.secondary_display_text = none →
            (processRecord project record).secondary_display_text = "")) := by
  refine ⟨?_, ?_, ?_⟩
  · unfold processAttendanceRecords
    congr 1
    exact List.filter_congr fun r _ => validate_eq_spec r
  · intro p hp
    unfold processAttendanceRecords at hp
    rcases List.mem_map.mp hp with ⟨r, _, rfl⟩
    rfl
  · intro record
    refine ⟨?_, ?_, ?_, ?_⟩ <;> intro h <;> simp [processRecord, h, jsOrEmpty]

/-- Witness for C9 at a concrete batch: the invalid record is dropped, the
valid one kept with the project attached. -/
theorem C9_witness :
    (processAttendanceRecords [rawGood, rawBad] projA = [recA])
    ∧ recA.project = projA :=
  ⟨by decide,
   (C9_normalize_drops_exactly_invalid [rawGood, rawBad] projA).2.1 recA
     (by decide)⟩

/-! ### Claim C10 -/

/-- Claim C10: `getStatus` never reveals the full API token.  Two
configurations that agree on everything except the hidden tail of the token
— same truthiness of the token and same first eight characters — produce
identical status output. -/
theorem C10_status_noninterference (c1 c2 : AttendanceConfig)
    (hbase : c1.baseUrl = c2.baseUrl) (hper : c1.perPage = c2.perPage)
    (hsync : c1.lastSyncTime = c2.lastSyncTime)
    (hcfg : truthy c1.apiToken = truthy c2.apiToken)
    (htok : ∀ t1 t2, c1.apiToken = some t1 → c2.apiToken = some t2 →
      t1.take 8 = t2.take 8) :
    getStatus c1 = getStatus c2 := by
  unfold getStatus
  rw [hbase, hper, hsync, hcfg]
  cases htr : truthy c2.apiToken with
  | false => simp [htr]
  | true =>
      cases h1 : c1.apiToken with
      | none =>
          rw [h1, htr] at hcfg
          exact absurd hcfg (by simp [truthy])
      | some t1 =>
          cases h2 : c2.apiToken with
          | none =>
              rw [h2] at htr
              simp [truthy] at htr
          | some t2 =>
              have htake := htok t1 t2 h1 h2
              simp [htr, h1, h2, jsOrEmpty, htake]

/-- Witness for C10: two tokens sharing the first eight characters but with
different tails give identical status objects. -/
theorem C10_witness :
    truthy (some "abcdefghSECRET1") = truthy (some "abcdefghOTHER22")
    ∧ getStatus { baseUrl := some "https://api", apiToken := some "abcdefghSECRET1",
                  perPage := 500, lastSyncTime := none }
      = getStatus { baseUrl := some "https://api", apiToken := some "abcdefghOTHER22",
                    perPage := 500, lastSyncTime := none } :=
  ⟨by decide,
   C10_status_noninterference _ _ rfl rfl rfl (by decide)
     (by intro t1 t2 h1 h2; cases h1; cases h2; decide)⟩

/-! ### Store lemmas -/

theorem extractUIDs_singleton (header : SheetRow) :
    extractUIDs [header] = [] := rfl

/-- The rows produced by a successful append: the old rows followed by the
rows of the records whose uid is not among the existing UIDs. -/
theorem append_ok_rows (readF : Bool) (rows : List SheetRow)
    (recs : List ProcessedRecord) :
    (appendAttendanceData readF none rows recs).rows
      = rows ++ (recs.filter (fun r =>
          !((getExistingUIDs readF rows).contains (uidCell r)))).map
            recordToRow := by
  simp only [appendAttendanceData]
  by_cases h0 : recs.length = 0
  · rw [if_pos h0]
    have hnil : recs = [] := List.length_eq_zero.mp h0
    subst hnil
    simp
  · rw [if_neg h0]
    by_cases h1 : (recs.filter (fun r =>
        !((getExistingUIDs readF rows).contains (uidCell r)))).length = 0
    · rw [if_pos h1]
      have hnil := List.length_eq_zero.mp h1
      rw [hnil]
      simp
    · rw [if_neg h1]

/-- Reading the UID column of a header row followed by record rows yields
exactly the uid cells of the records, provided no uid cell is empty. -/
theorem extractUIDs_header_records (header : SheetRow)
    (R : List ProcessedRecord) (hne : ∀ r ∈ R, uidCell r ≠ "") :
    extractUIDs (header :: R.map recordToRow) = R.map uidCell := by
  cases R with
  | nil => rfl
  | cons a as =>
      unfold extractUIDs
      rw [if_pos (by simp)]
      simp only [List.drop_succ_cons, List.drop_zero, List.map_map]
      have hfun : ((fun row : SheetRow => row.headD "") ∘ recordToRow)
          = uidCell := by
        funext r
        rfl
      rw [hfun]
      apply List.filter_eq_self.mpr
      intro b hb
      rcases List.mem_map.mp hb with ⟨r, hr, rfl⟩
      exact bne_iff_ne.mpr (hne r hr)

/-! ### Claim C4 -/

/-- Store with a header row and one persisted record with uid a1. -/
def storeC4 : List SheetRow := [hdr13, recordToRow recA]

/-- Claim C4 evaluated at the failing input: when the dedup-key read throws,
`getExistingUIDs` silently returns the empty list instead of propagating a
store error, so a subsequent append of an already-persisted record succeeds
and duplicates uid a1 across data rows — the sync attempt is not aborted. -/
theorem C4_read_failure_swallowed :
    getExistingUIDs true storeC4 = []
    ∧ extractUIDs storeC4 = ["a1"]
    ∧ (appendAttendanceData true none storeC4 [recA]).retVal
        = Except.ok (some 1)
    ∧ (appendAttendanceData true none storeC4 [recA]).writeCalls = 1
    ∧ dataUIDs (appendAttendanceData true none storeC4 [recA]).rows
        = ["a1", "a1"]
    ∧ ¬ (dataUIDs (appendAttendanceData true none storeC4 [recA]).rows).Nodup
    := by decide

/-! ### Claim C6 -/

/-- Counterexample to claim C6 as stated: with R1 = [recA] and
R2 = [recA, recV1, recV2] (so R2 contains every uid of R1), running append
R1 then append R2 leaves uid v duplicated across the data rows — the store
does not hold a uid-deduplicated union; and an append whose difference
against the existing keys is empty returns undefined, not 0. -/
theorem C6_counterexample :
    (∀ r ∈ [recA], uidCell r ∈ ([recA, recV1, recV2].map uidCell))
    ∧ dataUIDs (appendAttendanceData false none
        (appendAttendanceData false none [hdr13] [recA]).rows
        [recA, recV1, recV2]).rows = ["a1", "v", "v"]
    ∧ ¬ (["a1", "v", "v"] : List String).Nodup
    ∧ (appendAttendanceData false none [hdr13, recordToRow recA]
        [recA]).retVal = Except.ok none
    ∧ (Except.ok none : Except String (Option Nat)) ≠ Except.ok (some 0)
    := by decide

/-- Claim C6 as amended: when each batch carries pairwise-distinct non-empty
uids, append(R1) then append(R2) starting from a header-only store leaves
the data rows with exactly the uid-deduplicated union of R1 and R2 and no
duplicated uid; and whenever the difference against the existing keys is
empty, the append issues no write call and returns undefined (coerced to 0
by its callers) rather than the number 0. -/
theorem C6_idempotent_append (header : SheetRow)
    (R1 R2 : List ProcessedRecord)
    (hnd1 : (R1.map uidCell).Nodup) (hnd2 : (R2.map uidCell).Nodup)
    (hne1 : ∀ r ∈ R1, uidCell r ≠ "") (hne2 : ∀ r ∈ R2, uidCell r ≠ "")
    (hsub : ∀ r ∈ R1, uidCell r ∈ R2.map uidCell) :
    (dataUIDs (appendAttendanceData false none
        (appendAttendanceData false none [header] R1).rows R2).rows).Nodup
    ∧ (∀ u, u ∈ dataUIDs (appendAttendanceData false none
          (appendAttendanceData false none [header] R1).rows R2).rows
        ↔ u ∈ R1.map uidCell ∨ u ∈ R2.map uidCell)
    ∧ (∀ (readF : Bool) (rows : List SheetRow)
          (recs : List ProcessedRecord),
        recs.length ≠ 0 →
        (recs.filter (fun r =>
          !((getExistingUIDs readF rows).contains (uidCell r)))).length = 0 →
        appendAttendanceData readF none rows recs
          = { retVal := Except.ok none, rows := rows, writeCalls := 0 }) := by
  have hstep1 : (appendAttendanceData false none [header] R1).rows
      = header :: R1.map recordToRow := by
    rw [append_ok_rows]
    simp [getExistingUIDs, extractUIDs_singleton]
  have hexist : getExistingUIDs false (header :: R1.map recordToRow)
      = R1.map uidCell := by
    simp only [getExistingUIDs, if_neg (Bool.false_ne_true ∘ id)]
    exact extractUIDs_header_records header R1 hne1
  have hstep2 : (appendAttendanceData false none
        (appendAttendanceData false none [header] R1).rows R2).rows
      = header :: R1.map recordToRow
          ++ (R2.filter (fun r =>
              !((R1.map uidCell).contains (uidCell r)))).map recordToRow := by
    rw [hstep1, append_ok_rows, hexist]
  have hdata : dataUIDs (appendAttendanceData false none
        (appendAttendanceData false none [header] R1).rows R2).rows
      = R1.map uidCell ++ (R2.filter (fun r =>
          !((R1.map uidCell).contains (uidCell r)))).map uidCell := by
    rw [hstep2]
    unfold dataUIDs
    simp only [List.cons_append, List.drop_succ_cons, List.drop_zero,
      List.map_append, List.map_map]
    have hfun : ((fun row : SheetRow => row.headD "") ∘ recordToRow)
        = uidCell := by
      funext r
      rfl
    rw [hfun]
  refine ⟨?_, ?_, ?_⟩
  · rw [hdata]
    apply List.nodup_append.mpr
    refine ⟨hnd1, ?_, ?_⟩
    · exact ((List.filter_sublist R2).map uidCell).nodup hnd2
    · intro u hu1 hu2
      rcases List.mem_map.mp hu2 with ⟨r, hr, rfl⟩
      rcases List.mem_filter.mp hr with ⟨-, hpr⟩
      rw [Bool.not_eq_true', ← Bool.not_eq_true] at hpr
      exact hpr (List.elem_iff.mpr hu1)
  · intro u
    rw [hdata, List.mem_append]
    constructor
    · rintro (h | h)
      · exact Or.inl h
      · rcases List.mem_map.mp h with ⟨r, hr, rfl⟩
        exact Or.inr (List.mem_map_of_mem uidCell
          (List.mem_of_mem_filter hr))
    · rintro (h | h)
      · exact Or.inl h
      · by_cases hmem : u ∈ R1.map uidCell
        · exact Or.inl hmem
        · rcases List.mem_map.mp h with ⟨r, hr, rfl⟩
          refine Or.inr (List.mem_map_of_mem uidCell ?_)
          refine List.mem_filter.mpr ⟨hr, ?_⟩
          simp only [Bool.not_eq_true']
          exact (Bool.not_eq_true _).mp
            (fun hc => hmem (List.elem_iff.mp hc))
  · intro readF rows recs h0 h1
    simp only [appendAttendanceData]
    rw [if_neg h0, if_pos h1]

/-- Witness for the amended C6 at a concrete pair of batches. -/
theorem C6_witness :
    (dataUIDs (appendAttendanceData false none
        (appendAttendanceData false none [hdr13] [recA]).rows
        [recA, recV1]).rows).Nodup :=
  (C6_idempotent_append hdr13 [recA] [recA, recV1] (by decide) (by decide)
    (by decide) (by decide) (by decide)).1

/-! ### Claim C2 -/

/-- Counterexample to claim C2 as stated: a sync attempt whose upstream
fetch succeeds but whose store append fails reports failure, yet the
watermark has already been advanced from 500 to the captured now 1000. -/
theorem C2_counterexample :
    sIdle.att.lastSyncTime = some 500
    ∧ (performSync 1000 envWriteFail sIdle [hdr13]).result.success = false
    ∧ (performSync 1000 envWriteFail sIdle [hdr13]).result.message
        = "StoreError"
    ∧ (performSync 1000 envWriteFail sIdle [hdr13]).state.att.lastSyncTime
        = some 1000 := by decide

/-- Claim C2 as amended: the watermark is advanced to the captured now
exactly when the upstream fetch returns successfully (records or not); it is
unchanged whenever the upstream call fails — timeouts included — but a store
append failure after a successful fetch leaves it already advanced. -/
theorem C2_watermark_follows_fetch (now : Nat) (env : SyncEnv)
    (s : SyncState) (store : List SheetRow) (h : s.isRunning = false) :
    (∀ message, env.fetchOutcome = FetchOutcome.err message →
      (performSync now env s store).state.att.lastSyncTime
          = s.att.lastSyncTime
      ∧ (performSync now env s store).result.success = false)
    ∧ (∀ records project,
        env.fetchOutcome = FetchOutcome.ok records project →
      (performSync now env s store).state.att.lastSyncTime = some now) := by
  constructor
  · intro message hm
    simp [performSync, getRecentAttendanceData, h, hm]
  · intro records project hm
    simp only [performSync, getRecentAttendanceData, h, hm,
      Bool.false_eq_true, if_false]
    split
    · rfl
    · split
      · rfl
      · split <;> rfl

/-- Witness for the amended C2: an upstream timeout leaves the watermark at
its previous value. -/
theorem C2_witness :
    sIdle.isRunning = false
    ∧ (performSync 1000 envTimeout sIdle [hdr13]).state.att.lastSyncTime
        = sIdle.att.lastSyncTime :=
  ⟨rfl,
   ((C2_watermark_follows_fetch 1000 envTimeout sIdle [hdr13] rfl).1
     "Request timeout - TIPSOI API took too long to respond" rfl).1⟩

/-! ### Claim C3 -/

/-- Claim C3 evaluated at the failing input: an attempt arriving while the
RunningFlag is set is rejected without fetching or appending (result,
cached result, watermark and store untouched), but the finally clause of the
source clears `isRunning` on this rejection path too, so the rejection does
not leave the flag set and the single-flight guard of the still-running
attempt is lost. -/
theorem C3_rejection_clears_flag (now : Nat) (env : SyncEnv) (s : SyncState)
    (store : List SheetRow) (h : s.isRunning = true) :
    (performSync now env s store).result
      = { success := false, message := "Sync already in progress",
          error := none, recordsFetched := 0, recordsAdded := 0 }
    ∧ (performSync now env s store).state.isRunning = false
    ∧ (performSync now env s store).state.lastSyncResult = s.lastSyncResult
    ∧ (performSync now env s store).state.att = s.att
    ∧ (performSync now env s store).store = store := by
  simp [performSync, h]

/-- Witness for C3 at a concrete busy state. -/
theorem C3_witness :
    sBusy.isRunning = true
    ∧ (performSync 1000 envOK sBusy [hdr13]).state.isRunning = false :=
  ⟨rfl, (C3_rejection_clears_flag 1000 envOK sBusy [hdr13] rfl).2.1⟩

/-! ### Claim C5 -/

/-- Filters passed to the read-only query in the C5 evaluation. -/
def filtersC5 : QueryFilters :=
  { startTime := some "2026-10-01T00:00:00",
    endTime := some "2026-10-02T00:00:00" }

/-- Claim C5 evaluated on the code: `fetchAttendanceData` never touches the
store, the RunningFlag or the cached result (universally), but — against the
claim — it calls the argument-less `getRecentAttendanceData`, so a
successful query advances the watermark used by subsequent auto syncs, here
from 500 to 1000. -/
theorem C5_query_mutates_watermark :
    (∀ (currentYear : Int) (now : Nat) (filters : QueryFilters)
        (env : SyncEnv) (s : SyncState) (store : List SheetRow),
      (fetchAttendanceData currentYear now filters env s store).store = store
      ∧ (fetchAttendanceData currentYear now filters env s
          store).state.isRunning = s.isRunning
      ∧ (fetchAttendanceData currentYear now filters env s
          store).state.lastSyncResult = s.lastSyncResult)
    ∧ sIdle.att.lastSyncTime = some 500
    ∧ (fetchAttendanceData 2026 1000 filtersC5 envOK sIdle
        [hdr13]).success = true
    ∧ (fetchAttendanceData 2026 1000 filtersC5 envOK sIdle
        [hdr13]).state.att.lastSyncTime = some 1000
    ∧ some 1000 ≠ (some 500 : Option Nat) := by
  refine ⟨?_, by decide, by decide, by decide, by decide⟩
  intro currentYear now filters env s store
  cases henv : env.fetchOutcome with
  | ok records project =>
      simp only [fetchAttendanceData, getRecentAttendanceData, henv]
      split
      · exact ⟨rfl, rfl, rfl⟩
      · split
        · exact ⟨rfl, rfl, rfl⟩
        · exact ⟨rfl, rfl, rfl⟩
  | err message =>
      simp [fetchAttendanceData, getRecentAttendanceData, henv]

/-! ### Claim C7 -/

/-- Counterexample to claim C7 as stated: a manual sync attempt completes
successfully (one record fetched and appended) yet `lastSyncResult` still
holds the previous attempt result, not one reflecting this attempt. -/
theorem C7_counterexample :
    (performManualSync 100 200 envOK sIdle [hdr13]).result.success = true
    ∧ (performManualSync 100 200 envOK sIdle [hdr13]).result.recordsAdded = 1
    ∧ (performManualSync 100 200 envOK sIdle [hdr13]).state.lastSyncResult
        = some resPrev
    ∧ some resPrev
        ≠ some (performManualSync 100 200 envOK sIdle [hdr13]).result := by
  decide

/-- Claim C7 as amended: a non-rejected auto sync attempt always replaces
`lastSyncResult` with its own outcome on completion, while a rejected auto
attempt and every manual sync attempt — successful or failed — leave
`lastSyncResult` untouched. -/
theorem C7_lastSyncResult_policy (now : Nat) (env : SyncEnv) (s : SyncState)
    (store : List SheetRow) :
    (s.isRunning = false →
      (performSync now env s store).state.lastSyncResult
        = some (performSync now env s store).result)
    ∧ (s.isRunning = true →
      (performSync now env s store).state.lastSyncResult = s.lastSyncResult)
    ∧ (∀ startDate endDate : Nat,
      (performManualSync startDate endDate env s store).state.lastSyncResult
        = s.lastSyncResult) := by
  refine ⟨?_, ?_, ?_⟩
  · intro h
    cases henv : env.fetchOutcome with
    | ok records project =>
        simp only [performSync, getRecentAttendanceData, henv,
          Bool.false_eq_true, if_false, h]
        split
        · rfl
        · split
          · rfl
          · split <;> rfl
    | err message =>
        simp [performSync, getRecentAttendanceData, henv, h]
  · intro h
    simp [performSync, h]
  · intro startDate endDate
    cases hrun : s.isRunning with
    | true => simp [performManualSync, hrun]
    | false =>
        cases henv : env.fetchOutcome with
        | ok records project =>
            simp only [performManualSync, hrun, Bool.false_eq_true,
              if_false, henv]
            split
            · rfl
            · split <;> rfl
        | err message => simp [performManualSync, hrun, henv]

/-- Witness for the amended C7: a completed auto attempt installs its own
result as `lastSyncResult`. -/
theorem C7_witness :
    sIdle.isRunning = false
    ∧ (performSync 1000 envOK sIdle [hdr13]).state.lastSyncResult
        = some (performSync 1000 envOK sIdle [hdr13]).result :=
  ⟨rfl, (C7_lastSyncResult_policy 1000 envOK sIdle [hdr13]).1 rfl⟩

/-! ### Claim C8 -/

/-- Counterexample to claim C8 as stated: the auto path rejected while
another sync is in flight returns `success = false` — a failure-shaped
result, not a non-error skipped result. -/
theorem C8_counterexample :
    (performSync 1000 envOK sBusy [hdr13]).result.success = false := by
  decide

/-- Claim C8 as amended: both rejection paths report `success = false`; they
differ only in the message and in the error classification — the auto path
carries no error property (and leaves `lastSyncResult` alone), while the
manual path, which reaches its rejection by throwing, carries an error
classification. -/
theorem C8_rejection_shapes (now : Nat) (env : SyncEnv) (s : SyncState)
    (store : List SheetRow) (h : s.isRunning = true) :
    (performSync now env s store).result.success = false
    ∧ (performSync now env s store).result.message
        = "Sync already in progress"
    ∧ (performSync now env s store).result.error = none
    ∧ (performSync now env s store).state.lastSyncResult = s.lastSyncResult
    ∧ (∀ a b : Nat, (performManualSync a b env s store).result
        = { success := false,
            message := "Another sync operation is already running",
            error := some "Error", recordsFetched := 0,
            recordsAdded := 0 }) := by
  refine ⟨?_, ?_, ?_, ?_, ?_⟩ <;>
    simp [performSync, performManualSync, h]

/-- Witness for the amended C8 at a concrete busy state. -/
theorem C8_witness :
    sBusy.isRunning = true
    ∧ (performSync 1000 envOK sBusy [hdr13]).result.error = none :=
  ⟨rfl, (C8_rejection_shapes 1000 envOK sBusy [hdr13] rfl).2.2.1⟩

end ChangasApi
